import Mathlib

/-!
Verification development for the tiered routing/validation engine in
`src/main.py` (planning core) and the tool catalog in `src/service/app.py`.

Modelling conventions, used throughout:

* Python runtime values that flow through the core are JSON-shaped; they are
  modelled by the inductive type `Value` below.  Mappings are modelled with
  string keys (the tool catalog, planner calls and payment context are
  JSON-shaped data, whose mapping keys are strings).  Python behaviour that
  only arises for non-JSON mapping keys (hashability `TypeError`s for
  list/dict keys, and Python's cross-type numeric key equality such as
  `True == 1`) is outside the model.
* Four Python error paths are deliberately outside the model and are
  called out at the definitions that bound them: the unhashable-value
  `TypeError`s at `index[name] = spec` (src/main.py:30), at
  `index.get(name)` (src/main.py:84 and src/main.py:111) and at
  `key not in args` (src/main.py:116), and the `ValueError` from
  `int(value)` (src/main.py:65) on non-ASCII digit strings that pass the
  `isdigit` guard (such as the superscript `²`).  The claim-C5 amendment
  states its no-exception property only under explicit provisos
  (`toolSafeOK`, `callSafeOK`) that exclude exactly these inputs, the
  domain on which the model is faithful to the source.
* Python `float` is modelled by `Rat` (exact arithmetic).  Every constant
  appearing in the source is exactly representable, and no claim depends on
  binary rounding of these constants.  `inf`/`nan` string literals and
  underscore separators are not modelled by the string-to-float parser.
* Fallible code (Python expressions that can raise) is modelled in
  `Except String`; the error string names the Python exception.
* Messages are modelled by the `Message` structure of the data contract
  (`role`/`content` strings); the claims under study do not concern
  malformed message lists.
* `time.perf_counter` latency bookkeeping and the three `*_ms` output
  fields are outside the model (no claim concerns timing).
-/

/-- A chat message, per the §6 data contract: `{role, content}`. -/
structure Message where
  role : String
  content : String

/-- JSON-shaped Python runtime value.  `int` and `bool` are separate
constructors (the source explicitly excludes `bool` from `number`/`integer`
checks); `float` carries an exact rational. -/
inductive Value where
  | str : String → Value
  | int : Int → Value
  | float : Rat → Value
  | bool : Bool → Value
  | list : List Value → Value
  | dict : List (String × Value) → Value
  | none : Value

/-- Error value modelling Python `AttributeError` raised by calling `.get`
(or `.items`) on a non-mapping value. -/
def pyAttrError : String := "AttributeError: get called on a non-mapping value"

/-- Python truthiness (`bool(v)`) on JSON-shaped values. -/
def pyTruthy : Value → Bool
  | .str s => !(s.isEmpty)
  | .int n => n != 0
  | .float q => q != 0
  | .bool b => b
  | .list l => !(l.isEmpty)
  | .dict d => !(d.isEmpty)
  | .none => false

/-- Python `x or y` on values: `x` when truthy, else `y`. -/
def pyOr (x y : Value) : Value := if pyTruthy x then x else y

/-- Lookup in a string-keyed mapping (Python `d.get(k)` giving `none` when
the key is absent). -/
def lookupStr : List (String × Value) → String → Option Value
  | [], _ => Option.none
  | (k, v) :: rest, key => if k == key then some v else lookupStr rest key

/-- Python `==` on the values that can serve as tool names (hashable
scalars).  Containers are never dictionary keys within the model, and
Python's cross-type numeric equality (`1 == 1.0`, `True == 1`) is outside
the model. -/
def nameEq : Value → Value → Bool
  | .str a, .str b => a == b
  | .int a, .int b => a == b
  | .float a, .float b => a == b
  | .bool a, .bool b => a == b
  | .none, .none => true
  | _, _ => false

/-- Python `str(v)` as used for `unknown_tool` entries
(src/main.py:113).  String renderings of non-scalar values are
approximate; no claim depends on them. -/
def pyStr : Value → String
  | .str s => s
  | .int n => toString n
  | .float q => if q.den == 1 then toString q.num ++ ".0"
                else toString q.num ++ "/" ++ toString q.den
  | .bool true => "True"
  | .bool false => "False"
  | .list _ => "[...]"
  | .dict _ => "\x7b...\x7d"
  | .none => "None"

/-- Python `type(v).__name__` as recorded in `arg_type_issues`
(src/main.py:130). -/
def pyTypeName : Value → String
  | .str _ => "str"
  | .int _ => "int"
  | .float _ => "float"
  | .bool _ => "bool"
  | .list _ => "list"
  | .dict _ => "dict"
  | .none => "NoneType"

/-- Declared parameter schema of one tool (`_ToolSpec`, src/main.py:14-18). -/
structure ToolSpec where
  name : Value
  properties : List (String × Value)
  required : List Value

/-- Dictionary insertion (`index[name] = spec`): replace an existing binding
for an equal key, else append. -/
def dictInsertV : List (Value × ToolSpec) → Value → ToolSpec → List (Value × ToolSpec)
  | [], k, v => [(k, v)]
  | (k2, v2) :: rest, k, v =>
      if nameEq k2 k then (k, v) :: rest else (k2, v2) :: dictInsertV rest k v

/-- Dictionary lookup (`index.get(name)`) keyed by tool-name value. -/
def lookupV : List (Value × ToolSpec) → Value → Option ToolSpec
  | [], _ => Option.none
  | (k2, v2) :: rest, k => if nameEq k2 k then some v2 else lookupV rest k

/-- Registration of one parsed `function` mapping into the index
(src/main.py:25-34): read `name`, `parameters`, degrade malformed
`properties`/`required` to empty, and register the tool when its name is
truthy.  Caution: for a truthy list/dict name, `index[name] = spec`
(src/main.py:30) raises `TypeError` (unhashable) in Python, while this
model registers it — that error path is outside the model, and the
claim-C5 amendment excludes such names via `toolSafeOK`. -/
def toolIndexAdd (fn : List (String × Value)) (acc : List (Value × ToolSpec)) :
    List (Value × ToolSpec) :=
  let name := (lookupStr fn "name").getD .none
  let params := (lookupStr fn "parameters").getD (.dict [])
  let propertiesV : Value :=
    match params with
    | .dict p => (lookupStr p "properties").getD (.dict [])
    | _ => .dict []
  let requiredV : Value :=
    match params with
    | .dict p => (lookupStr p "required").getD (.list [])
    | _ => .list []
  let properties : List (String × Value) :=
    match propertiesV with
    | .dict d => d
    | _ => []
  let required : List Value :=
    match requiredV with
    | .list l => l
    | _ => []
  if pyTruthy name then dictInsertV acc name ⟨name, properties, required⟩ else acc

/-- One iteration of the `_tool_index` loop (src/main.py:23-34).  A tool
descriptor whose `"function"` value is present but not a mapping makes
`fn.get("name")` raise `AttributeError` (src/main.py:25); a non-mapping
descriptor degrades to an empty `fn` exactly as in the source. -/
def toolIndexStep (tool : Value) (acc : List (Value × ToolSpec)) :
    Except String (List (Value × ToolSpec)) :=
  match tool with
  | .dict kvs =>
    match lookupStr kvs "function" with
    | some (.dict f) => .ok (toolIndexAdd f acc)
    | some _ => .error pyAttrError
    | Option.none => .ok (toolIndexAdd [] acc)
  | _ => .ok (toolIndexAdd [] acc)

/-- The `_tool_index` loop (src/main.py:23-34). -/
def toolIndexLoop : List Value → List (Value × ToolSpec) → Except String (List (Value × ToolSpec))
  | [], acc => .ok acc
  | tool :: rest, acc =>
    match toolIndexStep tool acc with
    | .error e => .error e
    | .ok acc2 => toolIndexLoop rest acc2

/-- Model of `_tool_index(tools)` (src/main.py:21-35): builds the name-keyed index of
tool schemas. -/
def _tool_index (tools : List Value) : Except String (List (Value × ToolSpec)) :=
  toolIndexLoop tools []

/-- Model of `_is_type_compatible(value, expected_type)` (src/main.py:38-53).
The expected type is the raw schema value: `None` and any value other than
the six recognised type-name strings are always compatible. -/
def _is_type_compatible (v : Value) (expected_type : Value) : Bool :=
  match expected_type with
  | .str s =>
    if s == "string" then (match v with | .str _ => true | _ => false)
    else if s == "number" then (match v with | .int _ => true | .float _ => true | _ => false)
    else if s == "integer" then (match v with | .int _ => true | _ => false)
    else if s == "boolean" then (match v with | .bool _ => true | _ => false)
    else if s == "array" then (match v with | .list _ => true | _ => false)
    else if s == "object" then (match v with | .dict _ => true | _ => false)
    else true
  | _ => true

/-- Python whitespace for `\s`, `str.strip` and `str.isspace` (ASCII part). -/
def isSpaceChar (c : Char) : Bool :=
  c == ' ' || c == '\t' || c == '\n' || c == '\x0d' || c == '\x0b' || c == '\x0c'

/-- ASCII digit. -/
def isDigitChar (c : Char) : Bool := '0' ≤ c && c ≤ '9'

/-- ASCII letter. -/
def isAsciiAlpha (c : Char) : Bool := ('a' ≤ c && c ≤ 'z') || ('A' ≤ c && c ≤ 'Z')

/-- Regex word character `\w` / word-boundary class (ASCII part). -/
def isWordChar (c : Char) : Bool := isAsciiAlpha c || isDigitChar c || c == '_'

/-- Numeric value of a digit string. -/
def digitsToNat (l : List Char) : Nat :=
  l.foldl (fun acc c => 10 * acc + (c.toNat - 48)) 0

/-- Python `str.strip()`: drop leading and trailing whitespace. -/
def stripChars (l : List Char) : List Char :=
  ((l.dropWhile isSpaceChar).reverse.dropWhile isSpaceChar).reverse

/-- Python `str.isdigit()`, restricted to ASCII: nonempty and all ASCII
digits.  Caution: Python's `isdigit()` also accepts non-ASCII digits such
as the superscript `²`, for which `int(value)` at src/main.py:65 then
raises `ValueError` past the `isdigit` guard at src/main.py:64 — that
error path is outside the model (this predicate rejects such strings), and
the claim-C5 amendment excludes them via the `asciiString` proviso of
`callSafeOK`. -/
def pyIsDigit (l : List Char) : Bool := !(l.isEmpty) && l.all isDigitChar

/-- Python `float(s)` on a string: optional surrounding whitespace, optional
sign, decimal digits with optional fraction and exponent.  `inf`/`nan` and
underscore separators are treated as parse failures (they do not arise in
the claims). -/
def pyFloatOfString (l0 : List Char) : Option Rat :=
  let l1 := stripChars l0
  let signAndRest : Bool × List Char :=
    match l1 with
    | '+' :: r => (false, r)
    | '-' :: r => (true, r)
    | r => (false, r)
  let neg := signAndRest.1
  let l2 := signAndRest.2
  let intDigits := l2.takeWhile isDigitChar
  let l3 := l2.dropWhile isDigitChar
  let fracAndRest : List Char × List Char :=
    match l3 with
    | '.' :: r => (r.takeWhile isDigitChar, r.dropWhile isDigitChar)
    | r => ([], r)
  let fracDigits := fracAndRest.1
  let l4 := fracAndRest.2
  if intDigits.isEmpty && fracDigits.isEmpty then Option.none
  else
    let mantissa : Rat :=
      (digitsToNat intDigits : Rat) + mkRat (digitsToNat fracDigits) (10 ^ fracDigits.length)
    let signed : Rat := if neg then -mantissa else mantissa
    match l4 with
    | [] => some signed
    | 'e' :: r => pyFloatExp signed r
    | 'E' :: r => pyFloatExp signed r
    | _ => Option.none
where
  /-- Exponent suffix: optional sign and nonempty digits, ending the string. -/
  pyFloatExp (base : Rat) (l : List Char) : Option Rat :=
    let signAndRest : Bool × List Char :=
      match l with
      | '+' :: r => (false, r)
      | '-' :: r => (true, r)
      | r => (false, r)
    let ds := signAndRest.2.takeWhile isDigitChar
    let rest := signAndRest.2.dropWhile isDigitChar
    if ds.isEmpty || !(rest.isEmpty) then Option.none
    else if signAndRest.1 then some (base * mkRat 1 (10 ^ digitsToNat ds))
    else some (base * (10 ^ digitsToNat ds : Rat))

/-- Model of `_coerce_argument(value, expected_type)` (src/main.py:56-72): returns
the (possibly coerced) value and a success flag. -/
def _coerce_argument (v : Value) (expected_type : Value) : Value × Bool :=
  if _is_type_compatible v expected_type then (v, true)
  else
    match expected_type, v with
    | .str "number", .str s =>
      match pyFloatOfString s.data with
      | some q => (.float q, true)
      | Option.none => (v, false)
    | .str "integer", .str s =>
      if pyIsDigit s.data then (.int (digitsToNat s.data), true) else (v, false)
    | .str "boolean", .str s =>
      let lower := String.mk ((stripChars s.data).map Char.toLower)
      if lower == "true" || lower == "yes" || lower == "1" then (.bool true, true)
      else if lower == "false" || lower == "no" || lower == "0" then (.bool false, true)
      else (v, false)
    | _, _ => (v, false)

/-- The call name as read by the normalizer and validator
(src/main.py:79 and src/main.py:106): `call.get("name")`, absent giving
`None`.  Only defined for mapping calls; non-mapping calls raise before
this read. -/
def callName (kvs : List (String × Value)) : Value :=
  (lookupStr kvs "name").getD .none

/-- The call arguments as read by the normalizer and validator
(src/main.py:80-82 and src/main.py:107-109): `call.get("arguments", {})`
with non-mapping values replaced by an empty mapping. -/
def callArgs (kvs : List (String × Value)) : List (String × Value) :=
  match (lookupStr kvs "arguments").getD (.dict []) with
  | .dict a => a
  | _ => []

/-- One iteration of the `_normalize_calls` loop (src/main.py:78-95).
A call-list entry that is not a mapping makes `call.get("name")` raise
`AttributeError` (src/main.py:79).  Caution: for a list/dict call name,
`index.get(name)` (src/main.py:84) raises `TypeError` (unhashable) in
Python, while this model falls to the unknown-tool branch — that error
path is outside the model, and the claim-C5 amendment excludes such names
via `callSafeOK`. -/
def normalizeCall (idx : List (Value × ToolSpec)) (call : Value) : Except String Value :=
  match call with
  | .dict kvs =>
    let name := callName kvs
    let args := callArgs kvs
    match lookupV idx name with
    | some spec =>
      let next_args := args.map (fun kv =>
        let expected_type : Value :=
          match lookupStr spec.properties kv.1 with
          | some (.dict sch) => (lookupStr sch "type").getD .none
          | _ => .none
        (kv.1, (_coerce_argument kv.2 expected_type).1))
      .ok (.dict [("name", name), ("arguments", .dict next_args)])
    | Option.none => .ok (.dict [("name", name), ("arguments", .dict args)])
  | _ => .error pyAttrError

/-- The `_normalize_calls` loop (src/main.py:78-95). -/
def normalizeLoop (idx : List (Value × ToolSpec)) : List Value → Except String (List Value)
  | [] => .ok []
  | call :: rest =>
    match normalizeCall idx call with
    | .error e => .error e
    | .ok entry =>
      match normalizeLoop idx rest with
      | .ok l => .ok (entry :: l)
      | .error e => .error e

/-- Model of `_normalize_calls(function_calls, tools)` (src/main.py:75-96). -/
def _normalize_calls (function_calls : List Value) (tools : List Value) : Except String (List Value) :=
  match _tool_index tools with
  | .error e => .error e
  | .ok idx => normalizeLoop idx function_calls

/-- One `{tool, missing}` entry of `missing_required` (src/main.py:118). -/
structure MissingEntry where
  tool : Value
  missing : List Value

/-- Entry of `arg_type_issues` (src/main.py:125-132). -/
structure ArgTypeIssue where
  tool : Value
  argument : String
  expected_type : Value
  actual_type : String

/-- The validator output (src/main.py:135-140). -/
structure ValidationResult where
  valid : Bool
  missing_required : List MissingEntry
  unknown_tool : List String
  arg_type_issues : List ArgTypeIssue

/-- Python `key in args` for an entry of a `required` list against a
string-keyed argument mapping.  For hashable non-string entries this
agrees with Python (`key not in args` is true against string keys).
Caution: for a list/dict entry, `key not in args` (src/main.py:116) raises
`TypeError` (unhashable) in Python, while this model returns false — that
error path is outside the model, and the claim-C5 amendment excludes such
entries via `toolSafeOK`. -/
def pyKeyMem (k : Value) (args : List (String × Value)) : Bool :=
  match k with
  | .str s => args.any (fun kv => kv.1 == s)
  | _ => false

/-- The expected-type lookup shared by the validator (src/main.py:121-122):
`spec.properties.get(arg_name, {})`, then `.get("type")` when that schema is
a mapping. -/
def schemaType (properties : List (String × Value)) (arg_name : String) : Value :=
  match lookupStr properties arg_name with
  | some (.dict sch) => (lookupStr sch "type").getD .none
  | some _ => .none
  | Option.none => .none

/-- One iteration of the `_validate_calls` loop (src/main.py:105-132): the
issue entries this call appends to the three collections (`unknown_tool`,
`missing_required`, `arg_type_issues`).  A call naming an unknown tool
contributes only its name (and skips the other checks); a known tool
contributes its missing-required entry (when nonempty) and one entry per
uncoercible present argument.  A non-mapping call-list entry raises
`AttributeError` (src/main.py:106).  Caution: for a list/dict call name,
`index.get(name)` (src/main.py:111) raises `TypeError` (unhashable) in
Python, while this model treats the call as an unknown tool — that error
path is outside the model, and the claim-C5 amendment excludes such names
via `callSafeOK`. -/
def validateCall (idx : List (Value × ToolSpec)) (call : Value) :
    Except String (List String × List MissingEntry × List ArgTypeIssue) :=
  match call with
  | .dict kvs =>
    let name := callName kvs
    let args := callArgs kvs
    match lookupV idx name with
    | Option.none => .ok ([pyStr name], [], [])
    | some spec =>
      let missingList := spec.required.filter (fun k => !(pyKeyMem k args))
      let newIssues := args.filterMap (fun kv =>
        let expected_type := schemaType spec.properties kv.1
        if (_coerce_argument kv.2 expected_type).2 then Option.none
        else some ⟨name, kv.1, expected_type, pyTypeName kv.2⟩)
      .ok ([], if missingList.isEmpty then [] else [⟨name, missingList⟩], newIssues)
  | _ => .error pyAttrError

/-- The `_validate_calls` loop (src/main.py:105-132), threading the three
issue accumulators exactly as the Python loop appends to them. -/
def validateLoop (idx : List (Value × ToolSpec)) :
    List Value → List String → List MissingEntry → List ArgTypeIssue →
    Except String (List String × List MissingEntry × List ArgTypeIssue)
  | [], unk, miss, typ => .ok (unk, miss, typ)
  | call :: rest, unk, miss, typ =>
    match validateCall idx call with
    | .error e => .error e
    | .ok d => validateLoop idx rest (unk ++ d.1) (miss ++ d.2.1) (typ ++ d.2.2)

/-- Model of `_validate_calls(function_calls, tools)` (src/main.py:99-140). -/
def _validate_calls (function_calls : List Value) (tools : List Value) : Except String ValidationResult :=
  match _tool_index tools with
  | .error e => .error e
  | .ok idx =>
    match validateLoop idx function_calls [] [] [] with
    | .error e => .error e
    | .ok (unk, miss, typ) =>
      .ok { valid := unk.isEmpty && miss.isEmpty && typ.isEmpty
            missing_required := miss
            unknown_tool := unk
            arg_type_issues := typ }

/-- Python `" ".join(...)`: join chunks with a single space. -/
def joinSp : List (List Char) → List Char
  | [] => []
  | [x] => x
  | x :: y :: rest => x ++ ' ' :: joinSp (y :: rest)

/-- Concatenated user-authored message contents (src/main.py:144-148 and
src/main.py:172-176 and src/main.py:226), before lowercasing. -/
def userTextChars (messages : List Message) : List Char :=
  joinSp ((messages.filter (fun m => m.role == "user")).map (fun m => m.content.data))

/-- Python `str.lower()` (ASCII). -/
def lowerChars (l : List Char) : List Char := l.map Char.toLower

/-- Substring containment, Python `needle in hay`. -/
def containsSub (needle : List Char) : List Char → Bool
  | [] => needle.isPrefixOf ([] : List Char)
  | c :: t => needle.isPrefixOf (c :: t) || containsSub needle t

/-- The complexity assessment (src/main.py:163-167). -/
structure Complexity where
  label : String
  signal_hits : Nat
  punctuation_hits : Nat

/-- Multi-intent signal tokens (src/main.py:150-157). -/
def signalTokens : List (List Char) :=
  [" and ".data, " then ".data, " after that ".data, " also ".data, " plus ".data, " while ".data]

/-- First alternative `\$\s*\d+` of the money-mention pattern
(src/main.py:160) at the current position; on success returns the last
matched character and the remaining text. -/
def tryMoneyDollar : List Char → Option (Char × List Char)
  | '$' :: rest =>
    let r1 := rest.dropWhile isSpaceChar
    let ds := r1.takeWhile isDigitChar
    if ds.isEmpty then Option.none
    else some (ds.getLastD '0', r1.dropWhile isDigitChar)
  | _ => Option.none

/-- Whether a word-boundary `\b` holds immediately after a word character,
given the following text. -/
def wordEndOk : List Char → Bool
  | [] => true
  | c :: _ => !(isWordChar c)

/-- Second alternative `\b\d+\s*(usd|dollars?)\b` of the money-mention
pattern (src/main.py:160) at the current position, `prev` being the
character before the position (`Option.none` at the start of text). -/
def tryMoneyWord (prev : Option Char) (l : List Char) : Option (Char × List Char) :=
  let boundary := match prev with
    | Option.none => true
    | some p => !(isWordChar p)
  if !boundary then Option.none
  else
    let ds := l.takeWhile isDigitChar
    if ds.isEmpty then Option.none
    else
      let r1 := (l.dropWhile isDigitChar).dropWhile isSpaceChar
      match r1 with
      | 'u' :: 's' :: 'd' :: r2 => if wordEndOk r2 then some ('d', r2) else Option.none
      | 'd' :: 'o' :: 'l' :: 'l' :: 'a' :: 'r' :: r2 =>
        match r2 with
        | 's' :: r3 => if wordEndOk r3 then some ('s', r3) else Option.none
        | _ => if wordEndOk r2 then some ('r', r2) else Option.none
      | _ => Option.none

/-- One attempt of the alternation at the current position (first
alternative preferred, as in the regex). -/
def tryMoney (prev : Option Char) (l : List Char) : Option (Char × List Char) :=
  match tryMoneyDollar l with
  | some r => some r
  | Option.none => tryMoneyWord prev l

/-- Model of `len(re.findall(r"\$\s*\d+|\b\d+\s*(usd|dollars?)\b", text))`
(src/main.py:160): count of non-overlapping matches, scanning left to
right.  `fuel` bounds the recursion; every step consumes at least one
character, so `fuel = text.length` is exact. -/
def moneyScanF : Nat → Option Char → List Char → Nat
  | 0, _, _ => 0
  | _ + 1, _, [] => 0
  | fuel + 1, prev, c :: rest =>
    match tryMoney prev (c :: rest) with
    | some lr => 1 + moneyScanF fuel (some lr.1) lr.2
    | Option.none => moneyScanF fuel (some c) rest

/-- Money-mention count of a text. -/
def moneyMentions (t : List Char) : Nat := moneyScanF t.length Option.none t

/-- The `signal_hits` count (src/main.py:158): number of signal tokens present. -/
def signalHits (t : List Char) : Nat :=
  (signalTokens.filter (fun tok => containsSub tok t)).length

/-- The `punctuation_hits` count (src/main.py:159): commas plus semicolons. -/
def punctuationHits (t : List Char) : Nat :=
  (t.filter (fun c => c == ',')).length + (t.filter (fun c => c == ';')).length

/-- Model of `_estimate_complexity(messages)` (src/main.py:143-167). -/
def _estimate_complexity (messages : List Message) : Complexity :=
  let user_text := lowerChars (userTextChars messages)
  let signal_hits := signalHits user_text
  let punctuation_hits := punctuationHits user_text
  let has_multiple_money_mentions := 1 < moneyMentions user_text
  let multi_intent :=
    2 ≤ signal_hits || 2 ≤ punctuation_hits || has_multiple_money_mentions
  { label := if multi_intent then "multi_intent" else "single_intent"
    signal_hits := signal_hits
    punctuation_hits := punctuation_hits }

/-- Match of `\$\s*(\d+(?:\.\d+)?)` (src/main.py:178 and src/main.py:214) at
the current position, returning the captured amount. -/
def tryAmountAt : List Char → Option Rat
  | '$' :: rest =>
    let r1 := rest.dropWhile isSpaceChar
    let ds := r1.takeWhile isDigitChar
    if ds.isEmpty then Option.none
    else
      let r2 := r1.dropWhile isDigitChar
      match r2 with
      | '.' :: r3 =>
        let fs := r3.takeWhile isDigitChar
        if fs.isEmpty then some (digitsToNat ds : Rat)
        else some ((digitsToNat ds : Rat) + mkRat (digitsToNat fs) (10 ^ fs.length))
      | _ => some (digitsToNat ds : Rat)
  | _ => Option.none

/-- Model of `re.search(r"\$\s*(\d+(?:\.\d+)?)", text)`: first match, scanned left to
right; the captured group parsed by `float` (exact here, the group is a
decimal literal). -/
def findAmount : List Char → Option Rat
  | [] => Option.none
  | c :: rest =>
    match tryAmountAt (c :: rest) with
    | some q => some q
    | Option.none => findAmount rest

/-- Characters of the payee capture class `[a-zA-Z0-9_ ]` (src/main.py:218). -/
def isPayeeChar (c : Char) : Bool := isWordChar c || c == ' '

/-- Match of `\bto\s+([a-zA-Z][a-zA-Z0-9_ ]{1,30})` (src/main.py:218) at the
current position, returning the captured group after `.strip()`
(src/main.py:220). -/
def tryPayeeAt (prev : Option Char) : List Char → Option (List Char)
  | 't' :: 'o' :: rest =>
    let boundary := match prev with
      | Option.none => true
      | some p => !(isWordChar p)
    if !boundary then Option.none
    else
      let sp := rest.takeWhile isSpaceChar
      if sp.isEmpty then Option.none
      else
        match rest.dropWhile isSpaceChar with
        | c :: r2 =>
          if isAsciiAlpha c then
            some (stripChars (c :: (r2.takeWhile isPayeeChar).take 30))
          else Option.none
        | [] => Option.none
  | _ => Option.none

/-- Model of `re.search(r"\bto\s+([a-zA-Z][a-zA-Z0-9_ ]{1,30})", text)`: first match,
scanned left to right, with the stripped capture. -/
def findPayee (prev : Option Char) : List Char → Option (List Char)
  | [] => Option.none
  | c :: rest =>
    match tryPayeeAt prev (c :: rest) with
    | some s => some s
    | Option.none => findPayee (some c) rest

/-- Model of `_extract_payment_context(messages, payment_context)`
(src/main.py:170-185): caller context (copied) extended with text-derived
facts, never overwriting an existing key. -/
def _extract_payment_context (messages : List Message)
    (payment_context : Option (List (String × Value))) : List (String × Value) :=
  let ctx0 := payment_context.getD []
  let text := lowerChars (userTextChars messages)
  let ctx1 :=
    match findAmount text with
    | some q => if (lookupStr ctx0 "amount").isNone then ctx0 ++ [("amount", .float q)] else ctx0
    | Option.none => ctx0
  let ctx2 :=
    if containsSub "new payee".data text && (lookupStr ctx1 "new_payee").isNone
    then ctx1 ++ [("new_payee", .bool true)] else ctx1
  if containsSub "first time".data text && (lookupStr ctx2 "first_time_payee").isNone
  then ctx2 ++ [("first_time_payee", .bool true)] else ctx2

/-- Model of `_extract_simple_payment(text)` (src/main.py:211-222): defaults
`amount=20.0`, `payee="unknown"`; amount from the lowercased text, payee
from the original text. -/
def _extract_simple_payment (text : List Char) : Rat × List Char :=
  ((findAmount (lowerChars text)).getD 20,
   (findPayee Option.none text).getD "unknown".data)

/-- Python `float(v)` on a runtime value: identity on floats, conversion for
ints and bools, parsing for strings, `TypeError` otherwise. -/
def pyFloatE : Value → Except String Rat
  | .float q => .ok q
  | .int n => .ok (n : Rat)
  | .bool b => .ok (if b then 1 else 0)
  | .str s =>
    match pyFloatOfString s.data with
    | some q => .ok q
    | Option.none => .error "ValueError: could not convert string to float"
  | _ => .error "TypeError: float argument is not a string or a number"

/-- A local planner result (src/main.py:272-278, without the latency
field, which is outside the model). -/
structure LocalResult where
  function_calls : List Value
  confidence : Rat
  tool_rag_top_k : Nat
  repair_mode : Bool

/-- A cloud planner result (src/main.py:288 and src/main.py:293). -/
structure CloudResult where
  function_calls : List Value
  confidence : Rat

/-- The call list assembled by `_heuristic_local_calls` (src/main.py:229-256),
independent of `repair_mode`.  The fallback branch for an empty call list
reads `tools[0].get("function", {}).get("name")` without shape guards
(src/main.py:254), which raises `AttributeError` on non-mapping shapes. -/
def heuristicCallsE (messages : List Message) (tools : List Value)
    (index : List (Value × ToolSpec)) : Except String (List Value) :=
  let payload := _extract_simple_payment (userTextChars messages)
  let amount := payload.1
  let payee : Value := .str (String.mk payload.2)
  let calls : List Value :=
    (if (lookupV index (.str "resolve_payee")).isSome then
      [Value.dict [("name", .str "resolve_payee"),
                   ("arguments", .dict [("payee_name", payee)])]]
     else [])
    ++ (if (lookupV index (.str "risk_assess_transaction")).isSome then
      [Value.dict [("name", .str "risk_assess_transaction"),
                   ("arguments", .dict [("amount", .float amount), ("payee", payee)])]]
     else [])
    ++ (if (lookupV index (.str "create_payment_intent")).isSome then
      [Value.dict [("name", .str "create_payment_intent"),
                   ("arguments", .dict [("amount", .float amount),
                                        ("currency", .str "usd"), ("payee", payee)])]]
     else [])
    ++ (if (lookupV index (.str "confirm_payment")).isSome then
      [Value.dict [("name", .str "confirm_payment"),
                   ("arguments", .dict [("confirm", .bool true)])]]
     else [])
  if calls.isEmpty then
    match tools with
    | [] => .ok calls
    | t :: _ =>
      match t with
      | .dict kvs =>
        match (lookupStr kvs "function").getD (.dict []) with
        | .dict f =>
          let first := (lookupStr f "name").getD .none
          .ok (if pyTruthy first then
                 [Value.dict [("name", first), ("arguments", .dict [])]]
               else [])
        | _ => .error pyAttrError
      | _ => .error pyAttrError
  else .ok calls

/-- Model of `_heuristic_local_calls(messages, tools, repair_mode)`
(src/main.py:225-265): the assembled calls together with the adjusted,
clamped confidence (base `0.93`, repair `0.965`, penalties for a question
mark and for the substring `"and"`). -/
def _heuristic_local_calls (messages : List Message) (tools : List Value)
    (repair_mode : Bool) : Except String (List Value × Rat) :=
  let text := userTextChars messages
  match _tool_index tools with
  | .error e => .error e
  | .ok index =>
    match heuristicCallsE messages tools index with
    | .error e => .error e
    | .ok callsF =>
      let confidence0 : Rat :=
        match repair_mode with
        | true => 0.965
        | false => 0.93
      let confidence1 := if containsSub "?".data text then confidence0 - 0.04 else confidence0
      let confidence2 :=
        if containsSub "and".data (lowerChars text) then confidence1 - 0.03 else confidence1
      .ok (callsF, max 0 (min 0.999 confidence2))

/-- Model of `_call_local_planner(messages, tools, tool_rag_top_k, repair_mode)`
(src/main.py:268-278), without latency accounting. -/
def _call_local_planner (messages : List Message) (tools : List Value)
    (tool_rag_top_k : Nat) (repair_mode : Bool) : Except String LocalResult :=
  match _heuristic_local_calls messages tools repair_mode with
  | .error e => .error e
  | .ok cq => .ok { function_calls := cq.1, confidence := cq.2,
                    tool_rag_top_k := tool_rag_top_k, repair_mode := repair_mode }

/-- Model of `_call_cloud_planner(messages, tools)` (src/main.py:281-293).  The
`VOICEPAY_CLOUD_JSON` environment variable together with its `json.loads`
parse is modelled by the already-parsed `cloud_env` argument
(`Option.none` when the variable is unset or empty or its JSON is
malformed); the `try/except` that swallows a failing `float()` conversion
maps to falling through to the deterministic heuristic default. -/
def _call_cloud_planner (cloud_env : Option Value) (messages : List Message)
    (tools : List Value) : Except String CloudResult :=
  let override : Option CloudResult :=
    match cloud_env with
    | some (.dict d) =>
      match lookupStr d "function_calls" with
      | some (.list fc) =>
        match pyFloatE ((lookupStr d "confidence").getD (.float 0.99)) with
        | .ok q => some ⟨fc, q⟩
        | .error _ => Option.none
      | _ => Option.none
    | _ => Option.none
  match override with
  | some r => .ok r
  | Option.none =>
    match _heuristic_local_calls messages tools true with
    | .error e => .error e
    | .ok cq => .ok ⟨cq.1, max 0.99 cq.2⟩

/-- Model of `_needs_cloud_fallback(local_result, validation, complexity,
payment_context)` (src/main.py:188-208): the risk-aware fallback policy. -/
def _needs_cloud_fallback (local_result : LocalResult) (validation : ValidationResult)
    (complexity : Complexity) (payment_context : List (String × Value)) : Except String Bool :=
  let confidence := local_result.confidence
  if validation.valid = false then .ok true
  else if complexity.label = "multi_intent" ∧ local_result.function_calls.length < 2 then .ok true
  else
    match pyFloatE (pyOr ((lookupStr payment_context "amount").getD (.float 0)) (.float 0)) with
    | .error e => .error e
    | .ok amount =>
      let high_amount := (500 : Rat) ≤ amount
      let new_payee := pyTruthy ((lookupStr payment_context "new_payee").getD .none)
                    || pyTruthy ((lookupStr payment_context "first_time_payee").getD .none)
      let weak_auth := !(pyTruthy ((lookupStr payment_context "biometric_strong").getD (.bool true)))
      let high_risk := high_amount || new_payee || weak_auth
      let min_conf : Rat := if high_risk then 0.995 else 0.96
      .ok (decide (confidence < min_conf))

/-- Model of `_candidate_score(validation, confidence, complexity)`
(src/main.py:296-304). -/
def _candidate_score (validation : ValidationResult) (confidence : Rat)
    (complexity : Complexity) : Rat :=
  let score1 := confidence + (if validation.valid then (0.2 : Rat) else 0)
  let score2 := score1 - 0.08 * (validation.missing_required.length : Rat)
  let score3 := score2 - 0.05 * (validation.arg_type_issues.length : Rat)
  if complexity.label = "multi_intent" then score3 - 0.03 else score3

/-- The pass-2 candidate selection (src/main.py:341-342):
`local_b if score_b >= score_a else local_a` — the second candidate when
`score_a ≤ score_b` (so ties go to the repaired candidate), else the
first.  `generate_hybrid` applies it to the two local results and to their
two validations. -/
def pickByScore {α : Type} (score_a score_b : Rat) (a b : α) : α :=
  if score_a ≤ score_b then b else a

/-- The routing decision (src/main.py:321-330, 346-355, 362-371), without
the three latency fields, which are outside the model. -/
structure RoutingDecision where
  source : String
  route_reason : String
  function_calls : List Value
  confidence : Rat
  validation : ValidationResult

/-- Cloud-fallback tail of `generate_hybrid` (src/main.py:357-371): invoke
the cloud planner, normalize and validate its output, and return it as the
final result with no condition on that validation. -/
def _cloud_stage (messages : List Message) (tools : List Value)
    (cloud_env : Option Value) : Except String RoutingDecision :=
  match _call_cloud_planner cloud_env messages tools with
  | .error e => .error e
  | .ok cloud =>
    match _normalize_calls cloud.function_calls tools with
    | .error e => .error e
    | .ok ncalls =>
      match _validate_calls ncalls tools with
      | .error e => .error e
      | .ok cloud_validation =>
        .ok { source := "cloud (fallback)"
              route_reason := "local-uncertain-or-invalid"
              function_calls := ncalls
              confidence := cloud.confidence
              validation := cloud_validation }

/-- Pass-2 tail of `generate_hybrid` (src/main.py:332-371).  The split of
the source function into `generate_hybrid`/`_pass2_stage`/`_cloud_stage` is
purely structural: inlining the two stage functions gives the source
control flow line by line. -/
def _pass2_stage (messages : List Message) (tools : List Value)
    (confidence_threshold : Rat) (cloud_env : Option Value)
    (complexity : Complexity) (payment_context : List (String × Value))
    (local_a : LocalResult) (validation_a : ValidationResult) :
    Except String RoutingDecision :=
  match _call_local_planner messages tools 0 true with
  | .error e => .error e
  | .ok local_b0 =>
    match _normalize_calls local_b0.function_calls tools with
    | .error e => .error e
    | .ok nb =>
      let local_b := { local_b0 with function_calls := nb }
      match _validate_calls nb tools with
      | .error e => .error e
      | .ok validation_b =>
        match _needs_cloud_fallback local_b validation_b complexity payment_context with
        | .error e => .error e
        | .ok fallback_b =>
          let threshold_b := max (confidence_threshold - 0.02) 0.95
          let score_a := _candidate_score validation_a local_a.confidence complexity
          let score_b := _candidate_score validation_b local_b.confidence complexity
          let best_local := pickByScore score_a score_b local_a local_b
          let best_validation := pickByScore score_a score_b validation_a validation_b
          if fallback_b = false ∧ threshold_b ≤ best_local.confidence ∧ best_validation.valid = true then
            .ok { source := "on-device"
                  route_reason := "pass2-repair-accepted"
                  function_calls := best_local.function_calls
                  confidence := best_local.confidence
                  validation := best_validation }
          else
            _cloud_stage messages tools cloud_env

/-- Model of `generate_hybrid(messages, tools, confidence_threshold)`
(src/main.py:307-371): the routing orchestrator.  `cloud_env` is the
modelled `VOICEPAY_CLOUD_JSON` environment override (see
`_call_cloud_planner`); the source default for `confidence_threshold` is
`0.99`. -/
def generate_hybrid (messages : List Message) (tools : List Value)
    (confidence_threshold : Rat) (cloud_env : Option Value) :
    Except String RoutingDecision :=
  let payment_context := _extract_payment_context messages Option.none
  let complexity := _estimate_complexity messages
  match _call_local_planner messages tools 2 false with
  | .error e => .error e
  | .ok local_a0 =>
    match _normalize_calls local_a0.function_calls tools with
    | .error e => .error e
    | .ok na =>
      let local_a := { local_a0 with function_calls := na }
      match _validate_calls na tools with
      | .error e => .error e
      | .ok validation_a =>
        match _needs_cloud_fallback local_a validation_a complexity payment_context with
        | .error e => .error e
        | .ok fallback_a =>
          let threshold_a := max confidence_threshold 0.96
          if fallback_a = false ∧ threshold_a ≤ local_a.confidence then
            .ok { source := "on-device"
                  route_reason := "pass1-accepted"
                  function_calls := local_a.function_calls
                  confidence := local_a.confidence
                  validation := validation_a }
          else
            _pass2_stage messages tools confidence_threshold cloud_env
              complexity payment_context local_a validation_a

/-- The default payment tool catalog `PAYMENT_TOOLS`
(src/service/app.py:14-111), transcribed literally. -/
def PAYMENT_TOOLS : List Value :=
  [ .dict [("type", .str "function"),
      ("function", .dict [
        ("name", .str "resolve_payee"),
        ("description", .str "Resolve recipient from spoken payee name"),
        ("parameters", .dict [
          ("type", .str "object"),
          ("properties", .dict [("payee_name", .dict [("type", .str "string")])]),
          ("required", .list [.str "payee_name"])])])],
    .dict [("type", .str "function"),
      ("function", .dict [
        ("name", .str "verify_voice_match"),
        ("description", .str "Verify speaker against enrolled voice profile"),
        ("parameters", .dict [
          ("type", .str "object"),
          ("properties", .dict [("speaker_id", .dict [("type", .str "string")]),
                                ("confidence", .dict [("type", .str "number")])]),
          ("required", .list [.str "speaker_id"])])])],
    .dict [("type", .str "function"),
      ("function", .dict [
        ("name", .str "check_biometric_status"),
        ("description", .str "Read biometric challenge status from mobile client"),
        ("parameters", .dict [
          ("type", .str "object"),
          ("properties", .dict [("biometric_ok", .dict [("type", .str "boolean")])]),
          ("required", .list [.str "biometric_ok"])])])],
    .dict [("type", .str "function"),
      ("function", .dict [
        ("name", .str "risk_assess_transaction"),
        ("description", .str "Assess fraud and transaction risk before payment"),
        ("parameters", .dict [
          ("type", .str "object"),
          ("properties", .dict [("amount", .dict [("type", .str "number")]),
                                ("payee", .dict [("type", .str "string")]),
                                ("biometric_ok", .dict [("type", .str "boolean")])]),
          ("required", .list [.str "amount", .str "payee"])])])],
    .dict [("type", .str "function"),
      ("function", .dict [
        ("name", .str "create_payment_intent"),
        ("description", .str "Create a payment intent in Stripe test mode"),
        ("parameters", .dict [
          ("type", .str "object"),
          ("properties", .dict [("amount", .dict [("type", .str "number")]),
                                ("currency", .dict [("type", .str "string")]),
                                ("payee", .dict [("type", .str "string")])]),
          ("required", .list [.str "amount", .str "currency", .str "payee"])])])],
    .dict [("type", .str "function"),
      ("function", .dict [
        ("name", .str "confirm_payment"),
        ("description", .str "Confirm user approval before charging"),
        ("parameters", .dict [
          ("type", .str "object"),
          ("properties", .dict [("confirm", .dict [("type", .str "boolean")])]),
          ("required", .list [.str "confirm"])])])],
    .dict [("type", .str "function"),
      ("function", .dict [
        ("name", .str "charge_payment_testmode"),
        ("description", .str "Charge saved payment method in Stripe test mode"),
        ("parameters", .dict [
          ("type", .str "object"),
          ("properties", .dict [("amount", .dict [("type", .str "number")]),
                                ("currency", .dict [("type", .str "string")]),
                                ("payment_method_id", .dict [("type", .str "string")])]),
          ("required", .list [.str "amount", .str "currency"])])])]]

/-- Per-call `unknown_tool` contribution as §4.4 of the spec describes it:
a call naming a tool absent from the index contributes that name (via
`str`), a known tool contributes nothing. -/
def specCallUnknown (idx : List (Value × ToolSpec)) (call : Value) : List String :=
  match call with
  | .dict kvs =>
    match lookupV idx (callName kvs) with
    | Option.none => [pyStr (callName kvs)]
    | some _ => []
  | _ => []

/-- Per-call `missing_required` contribution as §4.4 of the spec describes
it: for a known tool, `missing = required − present_argument_keys`,
appended as one `{tool, missing}` entry when nonempty; an unknown tool
undergoes no further checks and contributes nothing. -/
def specCallMissing (idx : List (Value × ToolSpec)) (call : Value) : List MissingEntry :=
  match call with
  | .dict kvs =>
    match lookupV idx (callName kvs) with
    | Option.none => []
    | some spec =>
      let missing := spec.required.filter (fun k => !(pyKeyMem k (callArgs kvs)))
      if missing.isEmpty then [] else [⟨callName kvs, missing⟩]
  | _ => []

/-- Per-call `arg_type_issues` contribution as §4.4 of the spec describes
it: for a known tool, one entry per present argument whose coercion against
the declared type fails; an unknown tool contributes nothing. -/
def specCallBadTypes (idx : List (Value × ToolSpec)) (call : Value) : List ArgTypeIssue :=
  match call with
  | .dict kvs =>
    match lookupV idx (callName kvs) with
    | Option.none => []
    | some spec =>
      (callArgs kvs).filterMap (fun kv =>
        if (_coerce_argument kv.2 (schemaType spec.properties kv.1)).2 then Option.none
        else some ⟨callName kvs, kv.1, schemaType spec.properties kv.1, pyTypeName kv.2⟩)
  | _ => []

/-- Witness payment context for claim C3: `amount=750`, `new_payee=true`. -/
def ctxC3 : List (String × Value) := [("amount", Value.float 750), ("new_payee", Value.bool true)]

/-- Witness local-planner result for claim C3 (confidence `0.99`). -/
def lrC3 : LocalResult := ⟨[], 0.99, 2, false⟩

/-- A valid `ValidationResult` with all three issue collections empty. -/
def valOkEmpty : ValidationResult := ⟨true, [], [], []⟩

/-- A `single_intent` complexity assessment. -/
def cxSingle : Complexity := ⟨"single_intent", 0, 0⟩

/-- Witness tool catalog for claim C6: one tool `t` with a required
`number` argument `x`. -/
def toolsC6 : List Value :=
  [Value.dict [("type", .str "function"),
    ("function", .dict [
      ("name", .str "t"),
      ("parameters", .dict [
        ("type", .str "object"),
        ("properties", .dict [("x", .dict [("type", .str "number")])]),
        ("required", .list [.str "x"])])])]]

/-- The tool index built from `toolsC6`. -/
def idxC6 : List (Value × ToolSpec) :=
  [(.str "t", ⟨.str "t", [("x", .dict [("type", .str "number")])], [.str "x"]⟩)]

/-- Witness call list for claim C6: an unknown tool, a call missing `x`,
and a call passing an uncoercible string for `x`. -/
def callsC6 : List Value :=
  [Value.dict [("name", .str "mystery"), ("arguments", .dict [])],
   Value.dict [("name", .str "t"), ("arguments", .dict [])],
   Value.dict [("name", .str "t"), ("arguments", .dict [("x", .str "abc")])]]

/-- The validation result of `callsC6` against `toolsC6`. -/
def vC6 : ValidationResult :=
  ⟨false, [⟨.str "t", [.str "x"]⟩], ["mystery"], [⟨.str "t", "x", .str "number", "str"⟩]⟩

/-- End-to-end scenario 1 of the spec: the single user message
`"send $20 to Alice"`. -/
def msgsS1 : List Message := [⟨"user", "send $20 to Alice"⟩]

/-- The four heuristic payment calls planned for scenario 1 (payee
`"Alice"`, amount `20.0`). -/
def callsS1 : List Value :=
  [Value.dict [("name", .str "resolve_payee"),
               ("arguments", .dict [("payee_name", .str "Alice")])],
   Value.dict [("name", .str "risk_assess_transaction"),
               ("arguments", .dict [("amount", .float 20), ("payee", .str "Alice")])],
   Value.dict [("name", .str "create_payment_intent"),
               ("arguments", .dict [("amount", .float 20), ("currency", .str "usd"),
                                    ("payee", .str "Alice")])],
   Value.dict [("name", .str "confirm_payment"),
               ("arguments", .dict [("confirm", .bool true)])]]

/-- Scenario-1 pass-1 local result (confidence `0.93`). -/
def laS1 : LocalResult := ⟨callsS1, 0.93, 2, false⟩

/-- Scenario-1 pass-2 (repair) local result (confidence `0.965`). -/
def lbS1 : LocalResult := ⟨callsS1, 0.965, 0, true⟩

/-- Scenario-1 final routing decision: the cloud fallback. -/
def rS1 : RoutingDecision :=
  ⟨"cloud (fallback)", "local-uncertain-or-invalid", callsS1, 0.99, valOkEmpty⟩

/-- On a mapping call, the validator loop body produces exactly the three
per-call contributions described by the spec. -/
theorem validateCall_eq_spec (idx : List (Value × ToolSpec)) (kvs : List (String × Value)) :
    validateCall idx (.dict kvs) =
      .ok (specCallUnknown idx (.dict kvs), specCallMissing idx (.dict kvs),
           specCallBadTypes idx (.dict kvs)) := by
  cases hspec : lookupV idx (callName kvs) with
  | none => simp only [validateCall, specCallUnknown, specCallMissing, specCallBadTypes, hspec]
  | some spec => simp only [validateCall, specCallUnknown, specCallMissing, specCallBadTypes, hspec]

/-- The validator loop is total over the supplied calls: its three result
collections are the initial accumulators followed by the per-call
contributions of every call, in order. -/
theorem validateLoop_concat (idx : List (Value × ToolSpec)) :
    ∀ (calls : List Value) (unk : List String) (miss : List MissingEntry)
      (typ : List ArgTypeIssue) (r : List String × List MissingEntry × List ArgTypeIssue),
      validateLoop idx calls unk miss typ = .ok r →
      r.1 = unk ++ calls.flatMap (specCallUnknown idx) ∧
      r.2.1 = miss ++ calls.flatMap (specCallMissing idx) ∧
      r.2.2 = typ ++ calls.flatMap (specCallBadTypes idx) := by
  intro calls
  induction calls with
  | nil =>
    intro unk miss typ r h
    have h2 := Except.ok.inj h
    subst h2
    simp
  | cons c rest ih =>
    intro unk miss typ r h
    unfold validateLoop at h
    cases hd : validateCall idx c with
    | error e => rw [hd] at h; cases h
    | ok d =>
      rw [hd] at h
      rcases c with s | n | q | bb | l2 | kvs | _ <;>
        first
        | (exfalso; simp only [validateCall] at hd; cases hd)
        | skip
      have hds : d = (specCallUnknown idx (.dict kvs), specCallMissing idx (.dict kvs),
          specCallBadTypes idx (.dict kvs)) :=
        Except.ok.inj (hd.symm.trans (validateCall_eq_spec idx kvs))
      obtain ⟨h1, h2, h3⟩ := ih _ _ _ _ h
      subst hds
      refine ⟨?_, ?_, ?_⟩
      · rw [h1, List.flatMap_cons, List.append_assoc]
      · rw [h2, List.flatMap_cons, List.append_assoc]
      · rw [h3, List.flatMap_cons, List.append_assoc]

/-- Repair mode changes only the heuristic confidence, raising it by
exactly `0.035` (from base `0.93` to `0.965`, with identical penalties and
an inactive clamp); the planned calls are identical. -/
theorem heuristic_repair_shift (messages : List Message) (tools : List Value)
    (c : List Value) (q : Rat)
    (h : _heuristic_local_calls messages tools false = .ok (c, q)) :
    _heuristic_local_calls messages tools true = .ok (c, q + 7/200) := by
  unfold _heuristic_local_calls at h ⊢
  cases hidx : _tool_index tools with
  | error e => simp only [hidx] at h; exact Except.noConfusion h
  | ok index =>
    simp only [hidx] at h ⊢
    cases hce : heuristicCallsE messages tools index with
    | error e => simp only [hce] at h; exact Except.noConfusion h
    | ok callsF =>
      simp only [hce] at h ⊢
      by_cases h1 : containsSub "?".data (userTextChars messages) = true
      · simp only [if_pos h1] at h ⊢
        by_cases h2 : containsSub "and".data (lowerChars (userTextChars messages)) = true
        · simp only [if_pos h2, Except.ok.injEq, Prod.mk.injEq] at h ⊢
          obtain ⟨h3, h4⟩ := h
          subst h3
          subst h4
          exact ⟨rfl, by with_unfolding_all decide⟩
        · simp only [if_neg h2, Except.ok.injEq, Prod.mk.injEq] at h ⊢
          obtain ⟨h3, h4⟩ := h
          subst h3
          subst h4
          exact ⟨rfl, by with_unfolding_all decide⟩
      · simp only [if_neg h1] at h ⊢
        by_cases h2 : containsSub "and".data (lowerChars (userTextChars messages)) = true
        · simp only [if_pos h2, Except.ok.injEq, Prod.mk.injEq] at h ⊢
          obtain ⟨h3, h4⟩ := h
          subst h3
          subst h4
          exact ⟨rfl, by with_unfolding_all decide⟩
        · simp only [if_neg h2, Except.ok.injEq, Prod.mk.injEq] at h ⊢
          obtain ⟨h3, h4⟩ := h
          subst h3
          subst h4
          exact ⟨rfl, by with_unfolding_all decide⟩

/-- The pass-2 local planner call returns the pass-1 calls with confidence
raised by `0.035`. -/
theorem call_local_planner_shift (messages : List Message) (tools : List Value)
    (la : LocalResult)
    (h : _call_local_planner messages tools 2 false = .ok la) :
    _call_local_planner messages tools 0 true =
      .ok ⟨la.function_calls, la.confidence + 7/200, 0, true⟩ := by
  unfold _call_local_planner at h ⊢
  cases hh : _heuristic_local_calls messages tools false with
  | error e => simp only [hh] at h; exact Except.noConfusion h
  | ok cq =>
    obtain ⟨c, q⟩ := cq
    simp only [hh, Except.ok.injEq] at h
    rw [heuristic_repair_shift messages tools c q hh]
    subst h
    rfl

/-- The candidate score is monotone in the confidence, at fixed validation
and complexity. -/
theorem candidate_score_mono (v : ValidationResult) (cx : Complexity) (c1 c2 : Rat)
    (h : c1 ≤ c2) : _candidate_score v c1 cx ≤ _candidate_score v c2 cx := by
  unfold _candidate_score
  dsimp only
  split_ifs <;> linarith

/-- Claim C1, counterexample: on the single user message
`"send $20 to Alice"` with the default payment tool catalog and
`confidence_threshold = 0.99`, `generate_hybrid` does NOT return
`source="on-device"` with `route_reason="pass2-repair-accepted"`: the
pass-2 threshold is `max(0.99 − 0.02, 0.95) = 0.97`, above the repair
confidence `0.965`, so the claimed outcome is refuted. -/
theorem claim_C1_counterexample :
    ¬ ((generate_hybrid msgsS1 PAYMENT_TOOLS 0.99 Option.none).map
      (fun r => (r.source, r.route_reason)) =
        Except.ok ("on-device", "pass2-repair-accepted")) := by
  have h : (generate_hybrid msgsS1 PAYMENT_TOOLS 0.99 Option.none).map
      (fun r => (r.source, r.route_reason)) =
      Except.ok ("cloud (fallback)", "local-uncertain-or-invalid") := by
    with_unfolding_all rfl
  rw [h]
  intro hcontra
  have h2 := Except.ok.inj hcontra
  simp at h2

/-- Claim C1, amended: on the scenario-1 input, `generate_hybrid` returns
`source="cloud (fallback)"` with `route_reason="local-uncertain-or-invalid"`
and confidence `0.99` (pass-1 confidence `0.93 < 0.96`; pass-2 repair
confidence `0.965` is below `θ_b = max(0.99 − 0.02, 0.95) = 0.97`), and the
planned calls carry payee `"Alice"` and amount `20.0`. -/
theorem claim_C1_amended :
    (generate_hybrid msgsS1 PAYMENT_TOOLS 0.99 Option.none).map
      (fun r => (r.source, r.route_reason, r.confidence, r.function_calls)) =
    Except.ok ("cloud (fallback)", "local-uncertain-or-invalid", (0.99 : Rat), callsS1) := by
  with_unfolding_all rfl

/-- Claim C2: whenever pass 1 is not accepted, the orchestrator terminates
with `route_reason="pass2-repair-accepted"` exactly when the
higher-scoring candidate of the two local passes (ties to pass 2, via
`pickByScore`) is valid, is not flagged by the fallback policy, and has
confidence at least `θ_b = max(confidence_threshold − 0.02, 0.95)`;
otherwise it proceeds to the cloud stage. -/
theorem claim_C2
    (messages : List Message) (tools : List Value) (confidence_threshold : Rat)
    (cloud_env : Option Value)
    (la : LocalResult) (na : List Value) (va : ValidationResult) (fa : Bool)
    (lb : LocalResult) (nb : List Value) (vb : ValidationResult) (fb : Bool)
    (r : RoutingDecision)
    (hla : _call_local_planner messages tools 2 false = .ok la)
    (hna : _normalize_calls la.function_calls tools = .ok na)
    (hva : _validate_calls na tools = .ok va)
    (hfa : _needs_cloud_fallback { la with function_calls := na } va
             (_estimate_complexity messages)
             (_extract_payment_context messages Option.none) = .ok fa)
    (hreject : ¬ (fa = false ∧ max confidence_threshold 0.96 ≤ la.confidence))
    (hlb : _call_local_planner messages tools 0 true = .ok lb)
    (hnb : _normalize_calls lb.function_calls tools = .ok nb)
    (hvb : _validate_calls nb tools = .ok vb)
    (hfb : _needs_cloud_fallback { lb with function_calls := nb } vb
             (_estimate_complexity messages)
             (_extract_payment_context messages Option.none) = .ok fb)
    (hr : generate_hybrid messages tools confidence_threshold cloud_env = .ok r) :
    (r.route_reason = "pass2-repair-accepted" ↔
      ((pickByScore (_candidate_score va la.confidence (_estimate_complexity messages))
                    (_candidate_score vb lb.confidence (_estimate_complexity messages))
                    va vb).valid = true ∧
       _needs_cloud_fallback
         (pickByScore (_candidate_score va la.confidence (_estimate_complexity messages))
                      (_candidate_score vb lb.confidence (_estimate_complexity messages))
                      { la with function_calls := na } { lb with function_calls := nb })
         (pickByScore (_candidate_score va la.confidence (_estimate_complexity messages))
                      (_candidate_score vb lb.confidence (_estimate_complexity messages))
                      va vb)
         (_estimate_complexity messages)
         (_extract_payment_context messages Option.none) = .ok false ∧
       max (confidence_threshold - 0.02) 0.95 ≤
         (pickByScore (_candidate_score va la.confidence (_estimate_complexity messages))
                      (_candidate_score vb lb.confidence (_estimate_complexity messages))
                      { la with function_calls := na } { lb with function_calls := nb }).confidence)) ∧
    (r.route_reason ≠ "pass2-repair-accepted" →
      r.route_reason = "local-uncertain-or-invalid" ∧ r.source = "cloud (fallback)") := by
  have hshift := call_local_planner_shift messages tools la hla
  rw [hlb] at hshift
  have hlb2 := Except.ok.inj hshift
  have hfc : lb.function_calls = la.function_calls := by rw [hlb2]
  have hconf : lb.confidence = la.confidence + 7/200 := by rw [hlb2]
  have hnab : nb = na := by
    rw [hfc] at hnb
    exact Except.ok.inj (hnb.symm.trans hna)
  have hvab : vb = va := by
    rw [hnab] at hvb
    exact Except.ok.inj (hvb.symm.trans hva)
  have hscore : _candidate_score va la.confidence (_estimate_complexity messages) ≤
      _candidate_score vb lb.confidence (_estimate_complexity messages) := by
    rw [hvab, hconf]
    exact candidate_score_mono va (_estimate_complexity messages) la.confidence
      (la.confidence + 7/200) (by linarith)
  have hpickv : pickByScore (_candidate_score va la.confidence (_estimate_complexity messages))
      (_candidate_score vb lb.confidence (_estimate_complexity messages)) va vb = vb := by
    unfold pickByScore
    rw [if_pos hscore]
  have hpickl : pickByScore (_candidate_score va la.confidence (_estimate_complexity messages))
      (_candidate_score vb lb.confidence (_estimate_complexity messages))
      { la with function_calls := na } { lb with function_calls := nb }
      = { lb with function_calls := nb } := by
    unfold pickByScore
    rw [if_pos hscore]
  unfold generate_hybrid at hr
  simp only [hla] at hr
  simp only [hna] at hr
  simp only [hva] at hr
  simp only [hfa] at hr
  rw [if_neg hreject] at hr
  unfold _pass2_stage at hr
  simp only [hlb] at hr
  simp only [hnb] at hr
  simp only [hvb] at hr
  simp only [hfb] at hr
  by_cases hcond : fb = false ∧
      max (confidence_threshold - 0.02) 0.95 ≤
        (pickByScore (_candidate_score va la.confidence (_estimate_complexity messages))
                     (_candidate_score vb lb.confidence (_estimate_complexity messages))
                     { la with function_calls := na } { lb with function_calls := nb }).confidence ∧
      (pickByScore (_candidate_score va la.confidence (_estimate_complexity messages))
                   (_candidate_score vb lb.confidence (_estimate_complexity messages))
                   va vb).valid = true
  · rw [if_pos hcond] at hr
    have hrr := Except.ok.inj hr
    subst hrr
    constructor
    · refine iff_of_true rfl ⟨hcond.2.2, ?_, hcond.2.1⟩
      rw [hpickl, hpickv]
      rw [hcond.1] at hfb
      exact hfb
    · intro hne
      exact absurd rfl hne
  · rw [if_neg hcond] at hr
    unfold _cloud_stage at hr
    cases hcp : _call_cloud_planner cloud_env messages tools with
    | error e => simp only [hcp] at hr; exact Except.noConfusion hr
    | ok cloud =>
      simp only [hcp] at hr
      cases hnc : _normalize_calls cloud.function_calls tools with
      | error e => simp only [hnc] at hr; exact Except.noConfusion hr
      | ok ncalls =>
        simp only [hnc] at hr
        cases hvc : _validate_calls ncalls tools with
        | error e => simp only [hvc] at hr; exact Except.noConfusion hr
        | ok cv =>
          simp only [hvc] at hr
          have hrr := Except.ok.inj hr
          subst hrr
          constructor
          · apply iff_of_false
            · intro hcontra
              simp at hcontra
            · intro hcontra
              apply hcond
              obtain ⟨hv2, hf2, ht2⟩ := hcontra
              rw [hpickl, hpickv] at hf2
              refine ⟨Except.ok.inj (hfb.symm.trans hf2), ht2, hv2⟩
          · intro _
            exact ⟨rfl, rfl⟩

/-- Witness for claim C2 at the scenario-1 input, where the chosen pass-2
candidate fails the `θ_b` bound and the run proceeds to the cloud stage. -/
theorem claim_C2_witness :
    _call_local_planner msgsS1 PAYMENT_TOOLS 2 false = .ok laS1 ∧
    _normalize_calls laS1.function_calls PAYMENT_TOOLS = .ok callsS1 ∧
    _validate_calls callsS1 PAYMENT_TOOLS = .ok valOkEmpty ∧
    _needs_cloud_fallback { laS1 with function_calls := callsS1 } valOkEmpty
      (_estimate_complexity msgsS1) (_extract_payment_context msgsS1 Option.none) = .ok true ∧
    ¬ (true = false ∧ max (0.99 : Rat) 0.96 ≤ laS1.confidence) ∧
    _call_local_planner msgsS1 PAYMENT_TOOLS 0 true = .ok lbS1 ∧
    _normalize_calls lbS1.function_calls PAYMENT_TOOLS = .ok callsS1 ∧
    _needs_cloud_fallback { lbS1 with function_calls := callsS1 } valOkEmpty
      (_estimate_complexity msgsS1) (_extract_payment_context msgsS1 Option.none) = .ok false ∧
    generate_hybrid msgsS1 PAYMENT_TOOLS 0.99 Option.none = .ok rS1 ∧
    ((rS1.route_reason = "pass2-repair-accepted" ↔
      ((pickByScore (_candidate_score valOkEmpty laS1.confidence (_estimate_complexity msgsS1))
                    (_candidate_score valOkEmpty lbS1.confidence (_estimate_complexity msgsS1))
                    valOkEmpty valOkEmpty).valid = true ∧
       _needs_cloud_fallback
         (pickByScore (_candidate_score valOkEmpty laS1.confidence (_estimate_complexity msgsS1))
                      (_candidate_score valOkEmpty lbS1.confidence (_estimate_complexity msgsS1))
                      { laS1 with function_calls := callsS1 } { lbS1 with function_calls := callsS1 })
         (pickByScore (_candidate_score valOkEmpty laS1.confidence (_estimate_complexity msgsS1))
                      (_candidate_score valOkEmpty lbS1.confidence (_estimate_complexity msgsS1))
                      valOkEmpty valOkEmpty)
         (_estimate_complexity msgsS1)
         (_extract_payment_context msgsS1 Option.none) = .ok false ∧
       max ((0.99 : Rat) - 0.02) 0.95 ≤
         (pickByScore (_candidate_score valOkEmpty laS1.confidence (_estimate_complexity msgsS1))
                      (_candidate_score valOkEmpty lbS1.confidence (_estimate_complexity msgsS1))
                      { laS1 with function_calls := callsS1 } { lbS1 with function_calls := callsS1 }).confidence)) ∧
     (rS1.route_reason ≠ "pass2-repair-accepted" →
       rS1.route_reason = "local-uncertain-or-invalid" ∧ rS1.source = "cloud (fallback)")) := by
  have h1 : _call_local_planner msgsS1 PAYMENT_TOOLS 2 false = .ok laS1 := by
    with_unfolding_all rfl
  have h2 : _normalize_calls laS1.function_calls PAYMENT_TOOLS = .ok callsS1 := by
    with_unfolding_all rfl
  have h3 : _validate_calls callsS1 PAYMENT_TOOLS = .ok valOkEmpty := by
    with_unfolding_all rfl
  have h4 : _needs_cloud_fallback { laS1 with function_calls := callsS1 } valOkEmpty
      (_estimate_complexity msgsS1) (_extract_payment_context msgsS1 Option.none) = .ok true := by
    with_unfolding_all rfl
  have h5 : ¬ (true = false ∧ max (0.99 : Rat) 0.96 ≤ laS1.confidence) := by
    simp
  have h6 : _call_local_planner msgsS1 PAYMENT_TOOLS 0 true = .ok lbS1 := by
    with_unfolding_all rfl
  have h7 : _normalize_calls lbS1.function_calls PAYMENT_TOOLS = .ok callsS1 := by
    with_unfolding_all rfl
  have h8 : _needs_cloud_fallback { lbS1 with function_calls := callsS1 } valOkEmpty
      (_estimate_complexity msgsS1) (_extract_payment_context msgsS1 Option.none) = .ok false := by
    with_unfolding_all rfl
  have h9 : generate_hybrid msgsS1 PAYMENT_TOOLS 0.99 Option.none = .ok rS1 := by
    with_unfolding_all rfl
  exact ⟨h1, h2, h3, h4, h5, h6, h7, h8, h9,
    claim_C2 msgsS1 PAYMENT_TOOLS 0.99 Option.none laS1 callsS1 valOkEmpty true
      lbS1 callsS1 valOkEmpty false rS1 h1 h2 h3 h4 h5 h6 h7 h3 h8 h9⟩

/-- Claim C3: the fallback policy returns true iff validation is invalid,
or complexity is multi-intent with fewer than 2 calls, or the confidence is
below the risk floor, where the floor is `0.995` when
`amount ≥ 500 ∨ new_payee ∨ first_time_payee ∨ ¬biometric_strong` and
`0.96` otherwise.  The policy takes no confidence-threshold input, so the
floor is independent of the caller-supplied threshold. -/
theorem claim_C3 (local_result : LocalResult) (validation : ValidationResult)
    (complexity : Complexity) (payment_context : List (String × Value))
    (amount : Rat) (b : Bool)
    (hamount : pyFloatE (pyOr ((lookupStr payment_context "amount").getD (.float 0)) (.float 0)) = .ok amount)
    (h : _needs_cloud_fallback local_result validation complexity payment_context = .ok b) :
    b = true ↔
      (validation.valid = false ∨
       (complexity.label = "multi_intent" ∧ local_result.function_calls.length < 2) ∨
       local_result.confidence <
         (if (500 : Rat) ≤ amount
             ∨ pyTruthy ((lookupStr payment_context "new_payee").getD .none) = true
             ∨ pyTruthy ((lookupStr payment_context "first_time_payee").getD .none) = true
             ∨ pyTruthy ((lookupStr payment_context "biometric_strong").getD (.bool true)) = false
          then (0.995 : Rat) else (0.96 : Rat))) := by
  unfold _needs_cloud_fallback at h
  by_cases hv : validation.valid = false
  · rw [if_pos hv] at h
    have hb := Except.ok.inj h
    subst hb
    simp [hv]
  · rw [if_neg hv] at h
    by_cases hm : complexity.label = "multi_intent" ∧ local_result.function_calls.length < 2
    · rw [if_pos hm] at h
      have hb := Except.ok.inj h
      subst hb
      simp [hm]
    · rw [if_neg hm] at h
      rw [hamount] at h
      dsimp only at h
      have hb := Except.ok.inj h
      subst hb
      have hrisk : ((decide ((500 : Rat) ≤ amount) ||
            (pyTruthy ((lookupStr payment_context "new_payee").getD .none) ||
             pyTruthy ((lookupStr payment_context "first_time_payee").getD .none)) ||
            !(pyTruthy ((lookupStr payment_context "biometric_strong").getD (.bool true)))) = true) ↔
          ((500 : Rat) ≤ amount
            ∨ pyTruthy ((lookupStr payment_context "new_payee").getD .none) = true
            ∨ pyTruthy ((lookupStr payment_context "first_time_payee").getD .none) = true
            ∨ pyTruthy ((lookupStr payment_context "biometric_strong").getD (.bool true)) = false) := by
        simp [or_assoc, Bool.not_eq_true']
      simp only [hrisk, decide_eq_true_eq]
      constructor
      · intro hlt
        exact Or.inr (Or.inr hlt)
      · intro hor
        rcases hor with h1 | h2 | h3
        · exact absurd h1 hv
        · exact absurd h2 hm
        · exact h3

/-- Witness for claim C3: with `amount=750` and `new_payee=true` the floor
is `0.995`, and a valid single-intent result at confidence `0.99` is sent
to fallback. -/
theorem claim_C3_witness :
    pyFloatE (pyOr ((lookupStr ctxC3 "amount").getD (.float 0)) (.float 0)) = .ok 750 ∧
    _needs_cloud_fallback lrC3 valOkEmpty cxSingle ctxC3 = .ok true ∧
    (true = true ↔
      (valOkEmpty.valid = false ∨
       (cxSingle.label = "multi_intent" ∧ lrC3.function_calls.length < 2) ∨
       lrC3.confidence <
         (if (500 : Rat) ≤ 750
             ∨ pyTruthy ((lookupStr ctxC3 "new_payee").getD .none) = true
             ∨ pyTruthy ((lookupStr ctxC3 "first_time_payee").getD .none) = true
             ∨ pyTruthy ((lookupStr ctxC3 "biometric_strong").getD (.bool true)) = false
          then (0.995 : Rat) else (0.96 : Rat)))) :=
  ⟨by with_unfolding_all rfl, by with_unfolding_all rfl,
   claim_C3 lrC3 valOkEmpty cxSingle ctxC3 750 true
     (by with_unfolding_all rfl) (by with_unfolding_all rfl)⟩

/-- Claim C4: when neither local pass is accepted, the orchestrator invokes
the cloud planner, normalizes and validates its output, and returns it as
the final result with `source="cloud (fallback)"` and
`route_reason="local-uncertain-or-invalid"`, with no condition on the cloud
output validation — the cloud stage is terminal. -/
theorem claim_C4
    (messages : List Message) (tools : List Value) (confidence_threshold : Rat)
    (cloud_env : Option Value)
    (la : LocalResult) (na : List Value) (va : ValidationResult) (fa : Bool)
    (lb : LocalResult) (nb : List Value) (vb : ValidationResult) (fb : Bool)
    (r : RoutingDecision)
    (hla : _call_local_planner messages tools 2 false = .ok la)
    (hna : _normalize_calls la.function_calls tools = .ok na)
    (hva : _validate_calls na tools = .ok va)
    (hfa : _needs_cloud_fallback { la with function_calls := na } va
             (_estimate_complexity messages)
             (_extract_payment_context messages Option.none) = .ok fa)
    (hreject : ¬ (fa = false ∧ max confidence_threshold 0.96 ≤ la.confidence))
    (hlb : _call_local_planner messages tools 0 true = .ok lb)
    (hnb : _normalize_calls lb.function_calls tools = .ok nb)
    (hvb : _validate_calls nb tools = .ok vb)
    (hfb : _needs_cloud_fallback { lb with function_calls := nb } vb
             (_estimate_complexity messages)
             (_extract_payment_context messages Option.none) = .ok fb)
    (hreject2 : ¬ (fb = false ∧
        max (confidence_threshold - 0.02) 0.95 ≤
          (pickByScore (_candidate_score va la.confidence (_estimate_complexity messages))
                       (_candidate_score vb lb.confidence (_estimate_complexity messages))
                       { la with function_calls := na } { lb with function_calls := nb }).confidence ∧
        (pickByScore (_candidate_score va la.confidence (_estimate_complexity messages))
                     (_candidate_score vb lb.confidence (_estimate_complexity messages))
                     va vb).valid = true))
    (hr : generate_hybrid messages tools confidence_threshold cloud_env = .ok r) :
    ∃ cloud ncalls cv,
      _call_cloud_planner cloud_env messages tools = .ok cloud ∧
      _normalize_calls cloud.function_calls tools = .ok ncalls ∧
      _validate_calls ncalls tools = .ok cv ∧
      r = ⟨"cloud (fallback)", "local-uncertain-or-invalid", ncalls, cloud.confidence, cv⟩ := by
  unfold generate_hybrid at hr
  simp only [hla] at hr
  simp only [hna] at hr
  simp only [hva] at hr
  simp only [hfa] at hr
  rw [if_neg hreject] at hr
  unfold _pass2_stage at hr
  simp only [hlb] at hr
  simp only [hnb] at hr
  simp only [hvb] at hr
  simp only [hfb] at hr
  rw [if_neg hreject2] at hr
  unfold _cloud_stage at hr
  cases hcp : _call_cloud_planner cloud_env messages tools with
  | error e => simp only [hcp] at hr; exact Except.noConfusion hr
  | ok cloud =>
    simp only [hcp] at hr
    cases hnc : _normalize_calls cloud.function_calls tools with
    | error e => simp only [hnc] at hr; exact Except.noConfusion hr
    | ok ncalls =>
      simp only [hnc] at hr
      cases hvc : _validate_calls ncalls tools with
      | error e => simp only [hvc] at hr; exact Except.noConfusion hr
      | ok cv =>
        simp only [hvc] at hr
        exact ⟨cloud, ncalls, cv, rfl, hnc, hvc, (Except.ok.inj hr).symm⟩

/-- Witness for claim C4 at the scenario-1 input. -/
theorem claim_C4_witness :
    _call_local_planner msgsS1 PAYMENT_TOOLS 2 false = .ok laS1 ∧
    _needs_cloud_fallback { laS1 with function_calls := callsS1 } valOkEmpty
      (_estimate_complexity msgsS1) (_extract_payment_context msgsS1 Option.none) = .ok true ∧
    ¬ (true = false ∧ max (0.99 : Rat) 0.96 ≤ laS1.confidence) ∧
    ¬ (false = false ∧
        max ((0.99 : Rat) - 0.02) 0.95 ≤
          (pickByScore (_candidate_score valOkEmpty laS1.confidence (_estimate_complexity msgsS1))
                       (_candidate_score valOkEmpty lbS1.confidence (_estimate_complexity msgsS1))
                       { laS1 with function_calls := callsS1 }
                       { lbS1 with function_calls := callsS1 }).confidence ∧
        (pickByScore (_candidate_score valOkEmpty laS1.confidence (_estimate_complexity msgsS1))
                     (_candidate_score valOkEmpty lbS1.confidence (_estimate_complexity msgsS1))
                     valOkEmpty valOkEmpty).valid = true) ∧
    (∃ cloud ncalls cv,
      _call_cloud_planner Option.none msgsS1 PAYMENT_TOOLS = .ok cloud ∧
      _normalize_calls cloud.function_calls PAYMENT_TOOLS = .ok ncalls ∧
      _validate_calls ncalls PAYMENT_TOOLS = .ok cv ∧
      rS1 = ⟨"cloud (fallback)", "local-uncertain-or-invalid", ncalls, cloud.confidence, cv⟩) := by
  have h1 : _call_local_planner msgsS1 PAYMENT_TOOLS 2 false = .ok laS1 := by
    with_unfolding_all rfl
  have h2 : _normalize_calls laS1.function_calls PAYMENT_TOOLS = .ok callsS1 := by
    with_unfolding_all rfl
  have h3 : _validate_calls callsS1 PAYMENT_TOOLS = .ok valOkEmpty := by
    with_unfolding_all rfl
  have h4 : _needs_cloud_fallback { laS1 with function_calls := callsS1 } valOkEmpty
      (_estimate_complexity msgsS1) (_extract_payment_context msgsS1 Option.none) = .ok true := by
    with_unfolding_all rfl
  have h5 : ¬ (true = false ∧ max (0.99 : Rat) 0.96 ≤ laS1.confidence) := by
    simp
  have h6 : _call_local_planner msgsS1 PAYMENT_TOOLS 0 true = .ok lbS1 := by
    with_unfolding_all rfl
  have h7 : _normalize_calls lbS1.function_calls PAYMENT_TOOLS = .ok callsS1 := by
    with_unfolding_all rfl
  have h8 : _needs_cloud_fallback { lbS1 with function_calls := callsS1 } valOkEmpty
      (_estimate_complexity msgsS1) (_extract_payment_context msgsS1 Option.none) = .ok false := by
    with_unfolding_all rfl
  have h9 : generate_hybrid msgsS1 PAYMENT_TOOLS 0.99 Option.none = .ok rS1 := by
    with_unfolding_all rfl
  have h10 : ¬ (false = false ∧
      max ((0.99 : Rat) - 0.02) 0.95 ≤
        (pickByScore (_candidate_score valOkEmpty laS1.confidence (_estimate_complexity msgsS1))
                     (_candidate_score valOkEmpty lbS1.confidence (_estimate_complexity msgsS1))
                     { laS1 with function_calls := callsS1 }
                     { lbS1 with function_calls := callsS1 }).confidence ∧
      (pickByScore (_candidate_score valOkEmpty laS1.confidence (_estimate_complexity msgsS1))
                   (_candidate_score valOkEmpty lbS1.confidence (_estimate_complexity msgsS1))
                   valOkEmpty valOkEmpty).valid = true) := by
    with_unfolding_all decide
  exact ⟨h1, h4, h5, h10,
    claim_C4 msgsS1 PAYMENT_TOOLS 0.99 Option.none laS1 callsS1 valOkEmpty true
      lbS1 callsS1 valOkEmpty false rS1 h1 h2 h3 h4 h5 h6 h7 h3 h8 h10 h9⟩

/-- Claim C6: the validator processes every call — its three issue
collections are exactly the concatenation, in call order, of the per-call
contributions (unknown name appended and nothing else checked for that
call; `missing = required − present keys` appended as one entry when
nonempty; one `arg_type_issues` entry per failed coercion) — and the final
`valid` flag holds iff all three collections are empty. -/
theorem claim_C6 (tools calls : List Value) (idx : List (Value × ToolSpec))
    (v : ValidationResult)
    (hidx : _tool_index tools = .ok idx)
    (hv : _validate_calls calls tools = .ok v) :
    v.unknown_tool = calls.flatMap (specCallUnknown idx) ∧
    v.missing_required = calls.flatMap (specCallMissing idx) ∧
    v.arg_type_issues = calls.flatMap (specCallBadTypes idx) ∧
    (v.valid = true ↔
      (v.unknown_tool = [] ∧ v.missing_required = [] ∧ v.arg_type_issues = [])) := by
  unfold _validate_calls at hv
  rw [hidx] at hv
  dsimp only at hv
  cases hloop : validateLoop idx calls [] [] [] with
  | error e => rw [hloop] at hv; cases hv
  | ok r =>
    rw [hloop] at hv
    obtain ⟨hu, hm, ht⟩ := validateLoop_concat idx calls [] [] [] r hloop
    obtain ⟨u, m, t⟩ := r
    simp only at hu hm ht
    have hv2 := Except.ok.inj hv
    subst hv2
    simp only [List.nil_append] at hu hm ht
    refine ⟨hu, hm, ht, ?_⟩
    simp only [Bool.and_eq_true, List.isEmpty_iff]
    tauto

/-- Witness for claim C6 on a three-call list exercising all three issue
collections at once. -/
theorem claim_C6_witness :
    _tool_index toolsC6 = .ok idxC6 ∧
    _validate_calls callsC6 toolsC6 = .ok vC6 ∧
    (vC6.unknown_tool = callsC6.flatMap (specCallUnknown idxC6) ∧
     vC6.missing_required = callsC6.flatMap (specCallMissing idxC6) ∧
     vC6.arg_type_issues = callsC6.flatMap (specCallBadTypes idxC6) ∧
     (vC6.valid = true ↔
       (vC6.unknown_tool = [] ∧ vC6.missing_required = [] ∧ vC6.arg_type_issues = []))) :=
  ⟨rfl, rfl, claim_C6 toolsC6 callsC6 idxC6 vC6 rfl rfl⟩

/-- Claim C7: the complexity label is `multi_intent` iff
`signal_hits ≥ 2` or `punctuation_hits ≥ 2` or more than one money
mention, and `single_intent` otherwise; a message with exactly one signal
token, one comma and one dollar mention is `single_intent`, and adding a
second signal token, second comma or second dollar mention each flips it
to `multi_intent`. -/
theorem claim_C7 :
    (∀ messages : List Message,
      ((_estimate_complexity messages).label = "multi_intent" ↔
        (2 ≤ signalHits (lowerChars (userTextChars messages)) ∨
         2 ≤ punctuationHits (lowerChars (userTextChars messages)) ∨
         1 < moneyMentions (lowerChars (userTextChars messages)))) ∧
      ((_estimate_complexity messages).label = "single_intent" ↔
        ¬ (2 ≤ signalHits (lowerChars (userTextChars messages)) ∨
           2 ≤ punctuationHits (lowerChars (userTextChars messages)) ∨
           1 < moneyMentions (lowerChars (userTextChars messages))))) ∧
    (signalHits (lowerChars (userTextChars [⟨"user", "please send $20 to Bob and tip him, thanks"⟩])) = 1 ∧
     punctuationHits (lowerChars (userTextChars [⟨"user", "please send $20 to Bob and tip him, thanks"⟩])) = 1 ∧
     moneyMentions (lowerChars (userTextChars [⟨"user", "please send $20 to Bob and tip him, thanks"⟩])) = 1 ∧
     (_estimate_complexity [⟨"user", "please send $20 to Bob and tip him, thanks"⟩]).label = "single_intent") ∧
    (_estimate_complexity [⟨"user", "please send $20 to Bob and then tip him, thanks"⟩]).label = "multi_intent" ∧
    (_estimate_complexity [⟨"user", "please send $20 to Bob and tip him, thanks, bye"⟩]).label = "multi_intent" ∧
    (_estimate_complexity [⟨"user", "please send $20 to Bob and give $5 tip, thanks"⟩]).label = "multi_intent" := by
  refine ⟨fun messages => ?_, by decide, by decide, by decide, by decide⟩
  unfold _estimate_complexity
  dsimp only
  have hb : ((decide (2 ≤ signalHits (lowerChars (userTextChars messages))) ||
              decide (2 ≤ punctuationHits (lowerChars (userTextChars messages))) ||
              decide (1 < moneyMentions (lowerChars (userTextChars messages)))) = true) ↔
      (2 ≤ signalHits (lowerChars (userTextChars messages)) ∨
       2 ≤ punctuationHits (lowerChars (userTextChars messages)) ∨
       1 < moneyMentions (lowerChars (userTextChars messages))) := by
    simp [or_assoc]
  by_cases hcond : (2 ≤ signalHits (lowerChars (userTextChars messages)) ∨
       2 ≤ punctuationHits (lowerChars (userTextChars messages)) ∨
       1 < moneyMentions (lowerChars (userTextChars messages)))
  · rw [if_pos (hb.mpr hcond)]
    exact ⟨⟨fun _ => hcond, fun _ => rfl⟩,
           ⟨fun hl => absurd hl (by decide), fun hn => absurd hcond hn⟩⟩
  · rw [if_neg (fun hbt => hcond (hb.mp hbt))]
    exact ⟨⟨fun hl => absurd hl (by decide), fun hy => absurd hy hcond⟩,
           ⟨fun _ => hcond, fun _ => rfl⟩⟩

/-- Claim C8: coercion is idempotent — whenever
`_coerce_argument v t = (v2, ok=true)`, re-coercing gives
`_coerce_argument v2 t = (v2, ok=true)`. -/
theorem claim_C8 (v expected_type v2 : Value)
    (h : _coerce_argument v expected_type = (v2, true)) :
    _coerce_argument v2 expected_type = (v2, true) := by
  unfold _coerce_argument at h
  by_cases hc : _is_type_compatible v expected_type
  · rw [if_pos hc] at h
    simp only [Prod.mk.injEq] at h
    obtain ⟨h1, -⟩ := h
    subst h1
    unfold _coerce_argument
    rw [if_pos hc]
  · rw [if_neg hc] at h
    split at h
    · rename_i s
      cases hp : pyFloatOfString s.data with
      | none =>
        rw [hp] at h
        simp at h
      | some q =>
        rw [hp] at h
        simp only [Prod.mk.injEq] at h
        obtain ⟨h1, -⟩ := h
        subst h1
        rfl
    · rename_i s
      by_cases hd : pyIsDigit s.data
      · rw [if_pos hd] at h
        simp only [Prod.mk.injEq] at h
        obtain ⟨h1, -⟩ := h
        subst h1
        rfl
      · rw [if_neg hd] at h
        simp at h
    · rename_i s
      dsimp only at h
      split at h
      · simp only [Prod.mk.injEq] at h
        obtain ⟨h1, -⟩ := h
        subst h1
        rfl
      · split at h
        · simp only [Prod.mk.injEq] at h
          obtain ⟨h1, -⟩ := h
          subst h1
          rfl
        · simp at h
    · simp at h

/-- Witness for claim C8: re-coercing the integer produced from `"42"`
returns it unchanged. -/
theorem claim_C8_witness :
    _coerce_argument (Value.str "42") (Value.str "integer") = (Value.int 42, true) ∧
    _coerce_argument (Value.int 42) (Value.str "integer") = (Value.int 42, true) :=
  ⟨rfl, claim_C8 (Value.str "42") (Value.str "integer") (Value.int 42) rfl⟩

/-- Claim C9: the pass-2 selection rule (src/main.py:341-342, modelled by
`pickByScore`, applied by `generate_hybrid` to both the candidates and
their validations) picks the pass-2 (repaired) candidate when the scores
are exactly equal (and whenever `score_a ≤ score_b`), and picks the pass-1
candidate only when its score is strictly greater. -/
theorem claim_C9 (α : Type) (score_a score_b : Rat) (a b : α) :
    (score_a = score_b → pickByScore score_a score_b a b = b) ∧
    (score_a ≤ score_b → pickByScore score_a score_b a b = b) ∧
    (score_b < score_a → pickByScore score_a score_b a b = a) := by
  refine ⟨fun h => ?_, fun h => ?_, fun h => ?_⟩
  · unfold pickByScore
    rw [if_pos (le_of_eq h)]
  · unfold pickByScore
    rw [if_pos h]
  · unfold pickByScore
    rw [if_neg (not_le_of_lt h)]

/-- Witness for claim C9 at equal scores and at a strictly greater pass-1
score. -/
theorem claim_C9_witness :
    ((1 : Rat) = 1 ∧ pickByScore (1 : Rat) 1 "pass-1" "pass-2" = "pass-2") ∧
    ((0.97 : Rat) < 1.13 ∧ pickByScore (1.13 : Rat) 0.97 "pass-1" "pass-2" = "pass-1") :=
  ⟨⟨rfl, (claim_C9 String 1 1 "pass-1" "pass-2").1 rfl⟩,
   ⟨by norm_num, (claim_C9 String 1.13 0.97 "pass-1" "pass-2").2.2 (by norm_num)⟩⟩

/-- Claim C10: `generate_hybrid` derives the payment context passed to the
fallback policy solely from the user text (`_extract_payment_context` with
a `None` caller context, src/main.py:309): the context never contains a
`biometric_strong` key — so the policy reads its default `True` and
`weak_auth` is false — the `new_payee`/`first_time_payee` flags appear iff
the literal phrases `"new payee"`/`"first time"` occur, and `amount` is
exactly the first `$⟨number⟩` match. -/
theorem claim_C10 (messages : List Message) :
    lookupStr (_extract_payment_context messages Option.none) "biometric_strong" = Option.none ∧
    pyTruthy ((lookupStr (_extract_payment_context messages Option.none) "biometric_strong").getD (.bool true)) = true ∧
    lookupStr (_extract_payment_context messages Option.none) "new_payee" =
      (if containsSub "new payee".data (lowerChars (userTextChars messages))
       then some (Value.bool true) else Option.none) ∧
    lookupStr (_extract_payment_context messages Option.none) "first_time_payee" =
      (if containsSub "first time".data (lowerChars (userTextChars messages))
       then some (Value.bool true) else Option.none) ∧
    lookupStr (_extract_payment_context messages Option.none) "amount" =
      (findAmount (lowerChars (userTextChars messages))).map Value.float := by
  unfold _extract_payment_context
  dsimp only [Option.getD]
  cases hA : findAmount (lowerChars (userTextChars messages)) with
  | none =>
    by_cases hN : containsSub "new payee".data (lowerChars (userTextChars messages)) <;>
      by_cases hF : containsSub "first time".data (lowerChars (userTextChars messages)) <;>
        simp [hA, hN, hF, lookupStr, pyTruthy]
  | some q =>
    by_cases hN : containsSub "new payee".data (lowerChars (userTextChars messages)) <;>
      by_cases hF : containsSub "first time".data (lowerChars (userTextChars messages)) <;>
        simp [hA, hN, hF, lookupStr, pyTruthy]

